import Mathlib

/-!
Shallow embedding of the `kstat-rs` crate (src/kstat-rs/src/lib.rs) over the
FFI layout declared in src/libkstat-sys/src/lib.rs.

Modelling conventions:
* C byte buffers and Rust string slices are `List Nat` of byte values; Rust
  `&str` equality and ordering are byte-wise, so descriptors keep the UTF-8
  bytes of their strings and comparisons are byte lexicographic.
* A pointer to kernel memory is modelled by the value it points at; the
  kernel chain `kc_chain` is a `List kstat_t` (the `ks_next` links), and the
  `ks_data` pointer of a record is the typed content of the memory behind it
  (`KsMem`).  `ks_ndata` and `ks_data_size` stay independent fields exactly
  as the kernel reports them: the decoder must reconcile them itself.
* Machine integers are `Nat`/`Int`; none of the decode logic can overflow,
  every arithmetic step in the source (`/`, `min`, `*`) is on in-range
  values.
* Fallible Rust code (`Result<_, Error>`) becomes `Except Error _`; an
  `assert!` failure in the source (a Rust panic) is the `DataResult.panicked`
  outcome, distinct from returning an error.
-/

/-- Outer kstat type tag constants from libkstat-sys. -/
def KSTAT_TYPE_RAW : Nat := 0

/-- Outer tag for named (name/value) kstats. -/
def KSTAT_TYPE_NAMED : Nat := 1

/-- Outer tag for interrupt kstats. -/
def KSTAT_TYPE_INTR : Nat := 2

/-- Outer tag for I/O kstats. -/
def KSTAT_TYPE_IO : Nat := 3

/-- Outer tag for timer kstats. -/
def KSTAT_TYPE_TIMER : Nat := 4

/-- Inner named-value tag: char array. -/
def KSTAT_DATA_CHAR : Nat := 0

/-- Inner named-value tag: signed 32-bit. -/
def KSTAT_DATA_INT32 : Nat := 1

/-- Inner named-value tag: unsigned 32-bit. -/
def KSTAT_DATA_UINT32 : Nat := 2

/-- Inner named-value tag: signed 64-bit. -/
def KSTAT_DATA_INT64 : Nat := 3

/-- Inner named-value tag: unsigned 64-bit. -/
def KSTAT_DATA_UINT64 : Nat := 4

/-- Inner named-value tag: string. -/
def KSTAT_DATA_STRING : Nat := 9

/-- Length of the fixed string-buffer fields. -/
def KSTAT_STRLEN : Nat := 31

/-- UTF-8 validity checker in streaming form, structurally recursive on the
byte list.  `need` is how many continuation bytes the current sequence still
expects, and `lo`/`hi` bound the next byte when `need > 0` (the first
continuation byte of a multi-byte sequence is range-restricted to exclude
overlong encodings and surrogates, exactly as Rust's `str::from_utf8`). -/
def utf8ValidAux : List Nat → Nat → Nat → Nat → Bool
  | [], need, _, _ => need == 0
  | b :: rest, need, lo, hi =>
    if need > 0 then
      if lo ≤ b && b ≤ hi then utf8ValidAux rest (need - 1) 0x80 0xBF else false
    else
      if b < 0x80 then utf8ValidAux rest 0 0x80 0xBF
      else if 0xC2 ≤ b && b ≤ 0xDF then utf8ValidAux rest 1 0x80 0xBF
      else if b == 0xE0 then utf8ValidAux rest 2 0xA0 0xBF
      else if (0xE1 ≤ b && b ≤ 0xEC) || b == 0xEE || b == 0xEF then
        utf8ValidAux rest 2 0x80 0xBF
      else if b == 0xED then utf8ValidAux rest 2 0x80 0x9F
      else if b == 0xF0 then utf8ValidAux rest 3 0x90 0xBF
      else if 0xF1 ≤ b && b ≤ 0xF3 then utf8ValidAux rest 3 0x80 0xBF
      else if b == 0xF4 then utf8ValidAux rest 3 0x80 0x8F
      else false

/-- Whether a byte sequence is valid UTF-8 (`str::from_utf8` succeeds). -/
def utf8Valid (l : List Nat) : Bool := utf8ValidAux l 0 0x80 0xBF

/-- The crate's `Error` enum.  The `Io` variant wraps an OS error, modelled
by its error code. -/
inductive Error where
  | InvalidString
  | InvalidType (t : Nat)
  | InvalidNamedType (t : Nat)
  | NullData
  | Io (code : Int)
deriving DecidableEq, Repr

/-- The crate's `Type` enum (`Type` is reserved in Lean, hence the tick). -/
inductive Type' where
  | Raw
  | Named
  | Intr
  | Io
  | Timer
deriving DecidableEq, Repr

/-- The crate's `NamedType` enum. -/
inductive NamedType where
  | Char
  | Int32
  | UInt32
  | Int64
  | UInt64
  | String
deriving DecidableEq, Repr

/-- `impl TryFrom<u8> for Type`: match on the tag constants, any other value
is `InvalidType(tag)`. -/
def Type'.tryFrom (t : Nat) : Except Error Type' :=
  if t = KSTAT_TYPE_RAW then .ok .Raw
  else if t = KSTAT_TYPE_NAMED then .ok .Named
  else if t = KSTAT_TYPE_INTR then .ok .Intr
  else if t = KSTAT_TYPE_IO then .ok .Io
  else if t = KSTAT_TYPE_TIMER then .ok .Timer
  else .error (.InvalidType t)

/-- `impl TryFrom<u8> for NamedType`: match on the data tag constants, any
other value is `InvalidNamedType(tag)`. -/
def NamedType.tryFrom (t : Nat) : Except Error NamedType :=
  if t = KSTAT_DATA_CHAR then .ok .Char
  else if t = KSTAT_DATA_INT32 then .ok .Int32
  else if t = KSTAT_DATA_UINT32 then .ok .UInt32
  else if t = KSTAT_DATA_INT64 then .ok .Int64
  else if t = KSTAT_DATA_UINT64 then .ok .UInt64
  else if t = KSTAT_DATA_STRING then .ok .String
  else .error (.InvalidNamedType t)

/-- `kstat_named_data_str`: the `str` arm of the value union.  `addr` holds
the bytes of the memory behind the pointer (the C string it points at plus
whatever follows its NUL terminator). -/
structure kstat_named_data_str where
  addr : List Nat
  len : Nat
deriving DecidableEq, Repr

/-- The `kstat_named_data_u` union.  A C union is one region of memory with
several typed views; reading an arm the kernel did not write reinterprets
bytes, which the crate never does (the `data_type` tag selects the arm), so
the model carries every view as its own field and each access reads its
field. -/
structure kstat_named_data_u where
  charc : List Nat
  str : kstat_named_data_str
  i32 : Int
  ui32 : Nat
  i64 : Int
  ui64 : Nat
deriving DecidableEq, Repr

/-- The `kstat_named_t` FFI record: a 31-byte name buffer, a data-type tag
and the value union. -/
structure kstat_named_t where
  name : List Nat
  data_type : Nat
  value : kstat_named_data_u
deriving DecidableEq, Repr

/-- The `kstat_intr_t` FFI record. -/
structure kstat_intr_t where
  intr_hard : Nat
  intr_soft : Nat
  intr_watchdog : Nat
  intr_spurious : Nat
  intr_multisvc : Nat
deriving DecidableEq, Repr

/-- The `kstat_io_t` FFI record. -/
structure kstat_io_t where
  nread : Nat
  nwritten : Nat
  reads : Nat
  writes : Nat
  wtime : Int
  wlentime : Int
  wlastupdate : Int
  rtime : Int
  rlentime : Int
  rlastupdate : Int
  wcnt : Nat
  rcnt : Nat
deriving DecidableEq, Repr

/-- The `kstat_timer_t` FFI record. -/
structure kstat_timer_t where
  name : List Nat
  num_events : Nat
  elapsed_time : Int
  min_time : Int
  max_time : Int
  start_time : Int
  stop_time : Int
deriving DecidableEq, Repr

/-- The typed content of the memory behind a record's `ks_data` pointer.
In the kernel this memory is untyped bytes; the decoder reinterprets it
according to the record's declared type, and the model represents the view
the kernel actually wrote.  Decoding a record whose declared type does not
match the shape of its memory would be an untyped reinterpretation, which is
outside this model (see `Kstat.data`). -/
inductive KsMem where
  | bytes (bs : List Nat)
  | named (es : List kstat_named_t)
  | intr (v : kstat_intr_t)
  | io (v : kstat_io_t)
  | timer (ts : List kstat_timer_t)
deriving DecidableEq, Repr

/-- The `kstat_t` FFI record (one node of the kernel chain; the `ks_next`
link is the list structure of the chain itself). -/
structure kstat_t where
  ks_crtime : Int
  ks_kid : Int
  ks_module : List Nat
  ks_instance : Int
  ks_name : List Nat
  ks_type : Nat
  ks_class : List Nat
  ks_flags : Int
  ks_data : KsMem
  ks_ndata : Nat
  ks_data_size : Nat
  ks_snaptime : Int
deriving DecidableEq, Repr

/-- `kstat_str_parse`: read the fixed buffer as a C string (bytes up to the
NUL terminator) and validate it as UTF-8; a failure is `InvalidString`. -/
def kstat_str_parse (s : List Nat) : Except Error (List Nat) :=
  let bytes := s.takeWhile (fun b => b != 0)
  if utf8Valid bytes then .ok bytes else .error .InvalidString

/-- The `Kstat` descriptor.  String fields hold the parsed UTF-8 bytes; `ks`
is the back-reference to the underlying kernel record (`none` models a null
pointer). -/
structure Kstat where
  ks_crtime : Int
  ks_snaptime : Int
  ks_module : List Nat
  ks_instance : Int
  ks_name : List Nat
  ks_type : Type'
  ks_class : List Nat
  ks : Option kstat_t
deriving DecidableEq, Repr

/-- `impl TryFrom<&kstat_t> for Kstat`, with the fields computed in the
source's order.  The source fills the descriptor's `ks_class` field by
parsing the record's `ks_name` buffer (lib.rs line 299), not its `ks_class`
buffer; the model reproduces that. -/
def Kstat.tryFrom (k : kstat_t) : Except Error Kstat := do
  let m ← kstat_str_parse k.ks_module
  let n ← kstat_str_parse k.ks_name
  let t ← Type'.tryFrom k.ks_type
  let c ← kstat_str_parse k.ks_name
  .ok { ks_crtime := k.ks_crtime, ks_snaptime := k.ks_snaptime,
        ks_module := m, ks_instance := k.ks_instance, ks_name := n,
        ks_type := t, ks_class := c, ks := some k }

/-- `Ctl::iter` / `Iter::next`: walk the chain, yielding each record whose
descriptor construction succeeds and silently skipping every record whose
`Kstat::try_from` fails. -/
def Ctl.iter : List kstat_t → List Kstat
  | [] => []
  | k :: rest =>
    match Kstat.tryFrom k with
    | .ok ks => ks :: Ctl.iter rest
    | .error _ => Ctl.iter rest

/-- `Ctl::filter`: the iterator filtered by the disjunction of the three
per-criterion tests, a `None` criterion contributing `true` via
`unwrap_or(true)`. -/
def Ctl.filter (chain : List kstat_t) (module : Option (List Nat))
    (inst : Option Int) (name : Option (List Nat)) : List Kstat :=
  (Ctl.iter chain).filter fun kstat =>
    (module.map fun m => m == kstat.ks_module).getD true
      || (inst.map fun i => i == kstat.ks_instance).getD true
      || (name.map fun n => n == kstat.ks_name).getD true

/-- Byte-lexicographic comparison of byte lists: `Ord` on Rust `&str` (UTF-8
bytes compared bytewise). -/
def lexCmp : List Nat → List Nat → Ordering
  | [], [] => .eq
  | [], _ :: _ => .lt
  | _ :: _, [] => .gt
  | a :: as, b :: bs => (compare a b).then (lexCmp as bs)

/-- `impl Ord for Kstat`: class, module, instance and name in order, and then
the source's final comparison of `self.ks_class` against `other.ks_name`
(lib.rs line 194). -/
def Kstat.cmp (self other : Kstat) : Ordering :=
  ((((lexCmp self.ks_class other.ks_class).then
      (lexCmp self.ks_module other.ks_module)).then
      (compare self.ks_instance other.ks_instance)).then
      (lexCmp self.ks_name other.ks_name)).then
      (lexCmp self.ks_class other.ks_name)

/-- The `NamedData` enum: the value part of a name/value pair. -/
inductive NamedData where
  | Char (c : List Nat)
  | Int32 (i : Int)
  | UInt32 (u : Nat)
  | Int64 (i : Int)
  | UInt64 (u : Nat)
  | String (s : List Nat)
deriving DecidableEq, Repr

/-- `NamedData::data_type`: classify a value by its variant. -/
def NamedData.data_type : NamedData → NamedType
  | .Char _ => .Char
  | .Int32 _ => .Int32
  | .UInt32 _ => .UInt32
  | .Int64 _ => .Int64
  | .UInt64 _ => .UInt64
  | .String _ => .String

/-- The `Named` struct: one name/value pair of a named kstat. -/
structure Named where
  name : List Nat
  value : NamedData
deriving DecidableEq, Repr

/-- `Named::data_type` delegates to the value. -/
def Named.data_type (n : Named) : NamedType := n.value.data_type

/-- `impl TryFrom<&kstat_named_t> for Named`: parse the name buffer, convert
the embedded type tag, then read the union arm the tag selects.  For
`String` the pointed-at C string is read to its NUL and UTF-8-validated,
failing with `InvalidString`. -/
def Named.tryFrom (k : kstat_named_t) : Except Error Named := do
  let name ← kstat_str_parse k.name
  match ← NamedType.tryFrom k.data_type with
  | .Char => .ok { name := name, value := .Char k.value.charc }
  | .Int32 => .ok { name := name, value := .Int32 k.value.i32 }
  | .UInt32 => .ok { name := name, value := .UInt32 k.value.ui32 }
  | .Int64 => .ok { name := name, value := .Int64 k.value.i64 }
  | .UInt64 => .ok { name := name, value := .UInt64 k.value.ui64 }
  | .String =>
    let cb := k.value.str.addr.takeWhile (fun b => b != 0)
    if utf8Valid cb then .ok { name := name, value := .String cb }
    else .error .InvalidString

/-- The `Io` struct. -/
structure Io where
  nread : Nat
  nwritten : Nat
  reads : Nat
  writes : Nat
  wtime : Int
  wlentime : Int
  wlastupdate : Int
  rtime : Int
  rlentime : Int
  rlastupdate : Int
  wcnt : Nat
  rcnt : Nat
deriving DecidableEq, Repr

/-- `impl From<&kstat_io_t> for Io`: a field-for-field copy. -/
def Io.fromRaw (k : kstat_io_t) : Io :=
  { nread := k.nread, nwritten := k.nwritten, reads := k.reads,
    writes := k.writes, wtime := k.wtime, wlentime := k.wlentime,
    wlastupdate := k.wlastupdate, rtime := k.rtime, rlentime := k.rlentime,
    rlastupdate := k.rlastupdate, wcnt := k.wcnt, rcnt := k.rcnt }

/-- The `Intr` struct. -/
structure Intr where
  hard : Nat
  soft : Nat
  watchdog : Nat
  spurious : Nat
  multisvc : Nat
deriving DecidableEq, Repr

/-- `impl From<&kstat_intr_t> for Intr`: a field-for-field copy. -/
def Intr.fromRaw (k : kstat_intr_t) : Intr :=
  { hard := k.intr_hard, soft := k.intr_soft, watchdog := k.intr_watchdog,
    spurious := k.intr_spurious, multisvc := k.intr_multisvc }

/-- The `Timer` struct. -/
structure Timer where
  name : List Nat
  num_events : Nat
  elapsed_time : Int
  min_time : Int
  max_time : Int
  start_time : Int
  stop_time : Int
deriving DecidableEq, Repr

/-- `impl TryFrom<&kstat_timer_t> for Timer`: parse the name buffer and copy
the timing fields. -/
def Timer.tryFrom (k : kstat_timer_t) : Except Error Timer := do
  let name ← kstat_str_parse k.name
  .ok { name := name, num_events := k.num_events,
        elapsed_time := k.elapsed_time, min_time := k.min_time,
        max_time := k.max_time, start_time := k.start_time,
        stop_time := k.stop_time }

/-- The `Data` enum: decoded data from a single kstat. -/
inductive Data where
  | Raw (chunks : List (List Nat))
  | Named (vs : List Named)
  | Intr (v : Intr)
  | Io (v : Io)
  | Timer (ts : List Timer)
  | Null
deriving DecidableEq, Repr

/-- Outcome of `Kstat::data`.  `ok`/`err` are the two sides of the Rust
`Result`; `panicked` is a failed `assert!` in the `Intr`/`Io`/`Timer`
branches (a Rust panic, not an `Error` value), and also stands for the
out-of-model case of a record whose declared type does not match the shape
its kernel memory was written with (an untyped reinterpretation the model
does not represent). -/
inductive DataResult where
  | ok (d : Data)
  | err (e : Error)
  | panicked
deriving DecidableEq, Repr

/-- `iter().map(Named::try_from).collect::<Result<Vec<_>, _>>()`: decode the
entries left to right, stopping at the first error. -/
def collectNamed : List kstat_named_t → Except Error (List Named)
  | [] => .ok []
  | e :: rest => do
    let n ← Named.tryFrom e
    let ns ← collectNamed rest
    .ok (n :: ns)

/-- `iter().map(Timer::try_from).collect::<Result<Vec<_>, _>>()`. -/
def collectTimer : List kstat_timer_t → Except Error (List Timer)
  | [] => .ok []
  | t :: rest => do
    let v ← Timer.tryFrom t
    let vs ← collectTimer rest
    .ok (v :: vs)

/-- The `Raw` branch's loop: `ks_ndata` iterations, each slicing `item_size`
bytes at the cursor and advancing the cursor by `item_size`. -/
def rawChunks (bs : List Nat) (item_size : Nat) : Nat → List (List Nat)
  | 0 => []
  | n + 1 => bs.take item_size :: rawChunks (bs.drop item_size) item_size n

/-- `size_of::<sys::kstat_named_t>()` under the 64-bit `repr(C)` layout:
31-byte name buffer, one tag byte, and the 16-byte value union at 8-byte
alignment. -/
def size_of_kstat_named_t : Nat := 48

/-- `size_of::<sys::kstat_intr_t>()`: five 32-bit counters. -/
def size_of_kstat_intr_t : Nat := 20

/-- `size_of::<sys::kstat_io_t>()` under the 64-bit `repr(C)` layout. -/
def size_of_kstat_io_t : Nat := 80

/-- `size_of::<sys::kstat_timer_t>()` under the 64-bit `repr(C)` layout. -/
def size_of_kstat_timer_t : Nat := 80

/-- `Kstat::data`: re-dereference the back-pointer (null gives `NullData`)
and decode the payload according to the descriptor's parsed type tag.

* `Raw`: zero declared elements gives an empty vector; otherwise
  `item_size = ks_data_size / ks_ndata` and the payload is sliced into
  `ks_ndata` consecutive chunks of that width.
* `Named`: the usable count is the minimum of the declared count and
  `ks_data_size / size_of::<kstat_named_t>()`; that many entries are viewed
  and decoded, the first failure failing the whole read.
* `Intr`/`Io`: `assert!` that the declared count is 1 and the byte size is
  the fixed struct size, then a field-for-field copy.
* `Timer`: `assert!` that the byte size is declared count times the struct
  size, then decode that many timer records.
-/
def Kstat.data (self : Kstat) : DataResult :=
  match self.ks with
  | none => .err .NullData
  | some ks =>
    match self.ks_type with
    | .Raw =>
      match ks.ks_data with
      | .bytes bs =>
        if ks.ks_ndata = 0 then .ok (.Raw [])
        else
          let item_size := ks.ks_data_size / ks.ks_ndata
          .ok (.Raw (rawChunks bs item_size ks.ks_ndata))
      | _ => .panicked
    | .Named =>
      match ks.ks_data with
      | .named es =>
        let reported_count := ks.ks_ndata
        let actual_count := ks.ks_data_size / size_of_kstat_named_t
        let count := min reported_count actual_count
        match collectNamed (es.take count) with
        | .ok vs => .ok (.Named vs)
        | .error e => .err e
      | _ => .panicked
    | .Intr =>
      match ks.ks_data with
      | .intr v =>
        if ks.ks_ndata = 1 ∧ ks.ks_data_size = size_of_kstat_intr_t then
          .ok (.Intr (Intr.fromRaw v))
        else .panicked
      | _ => .panicked
    | .Io =>
      match ks.ks_data with
      | .io v =>
        if ks.ks_ndata = 1 ∧ ks.ks_data_size = size_of_kstat_io_t then
          .ok (.Io (Io.fromRaw v))
        else .panicked
      | _ => .panicked
    | .Timer =>
      match ks.ks_data with
      | .timer ts =>
        if ks.ks_data_size = ks.ks_ndata * size_of_kstat_timer_t then
          match collectTimer (ts.take ks.ks_ndata) with
          | .ok vs => .ok (.Timer vs)
          | .error e => .err e
        else .panicked
      | _ => .panicked

/-- The outer `Type'` a `Data` value exhibits: the classifier used to state
the tag/value consistency invariant.  `Null` is constructed nowhere in the
crate and corresponds to no type tag. -/
def Data.variantOf : Data → Option Type'
  | .Raw _ => some .Raw
  | .Named _ => some .Named
  | .Intr _ => some .Intr
  | .Io _ => some .Io
  | .Timer _ => some .Timer
  | .Null => none

/-! ## Helper lemmas -/

/-- Computation rule for the `Except` monad's bind on a success. -/
@[simp] theorem exceptBind_ok {α β : Type} (a : α) (f : α → Except Error β) :
    (Except.ok a >>= f) = f a := rfl

/-- Computation rule for the `Except` monad's bind on an error. -/
@[simp] theorem exceptBind_error {α β : Type} (e : Error)
    (f : α → Except Error β) :
    ((Except.error e : Except Error α) >>= f) = Except.error e := rfl

/-- Decoding a list of named entries succeeds only with one output per
input entry. -/
theorem collectNamed_ok_length :
    ∀ (l : List kstat_named_t) (vs : List Named),
      collectNamed l = Except.ok vs → vs.length = l.length := by
  intro l
  induction l with
  | nil =>
    intro vs h
    injection h with h
    subst h
    rfl
  | cons e rest ih =>
    intro vs h
    rw [collectNamed] at h
    cases he : Named.tryFrom e with
    | error err =>
      rw [he] at h
      exact absurd h (by simp)
    | ok n =>
      cases hr : collectNamed rest with
      | error err =>
        simp only [he, hr, exceptBind_ok, exceptBind_error] at h
        exact absurd h (by simp)
      | ok ns =>
        simp only [he, hr, exceptBind_ok, Except.ok.injEq] at h
        subst h
        simp [ih ns hr]

/-- Decoding a list of named entries stops at the first failing entry and
returns its error. -/
theorem collectNamed_error_of_mem :
    ∀ (l1 : List kstat_named_t) (e : kstat_named_t) (l2 : List kstat_named_t)
      (err : Error),
      (∀ x ∈ l1, ∃ v, Named.tryFrom x = Except.ok v) →
      Named.tryFrom e = Except.error err →
      collectNamed (l1 ++ e :: l2) = Except.error err := by
  intro l1
  induction l1 with
  | nil =>
    intro e l2 err _ he
    rw [List.nil_append, collectNamed]
    simp [he]
  | cons x rest ih =>
    intro e l2 err hok he
    obtain ⟨v, hv⟩ := hok x (by simp)
    have hrest : ∀ y ∈ rest, ∃ v, Named.tryFrom y = Except.ok v := by
      intro y hy; exact hok y (by simp [hy])
    rw [List.cons_append, collectNamed]
    simp [hv, ih e l2 err hrest he]

/-- The raw-branch loop produces the consecutive fixed-width slices of the
payload. -/
theorem rawChunks_eq_range_map (w : Nat) :
    ∀ (n : Nat) (bs : List Nat),
      rawChunks bs w n =
        (List.range n).map (fun i => (bs.drop (i * w)).take w) := by
  intro n
  induction n with
  | zero => intro bs; simp [rawChunks]
  | succ m ih =>
    intro bs
    rw [List.range_succ_eq_map]
    simp only [rawChunks, ih (bs.drop w), List.map_cons, List.map_map]
    congr 1
    · simp
    · rw [List.map_inj_left]
      intro i _
      simp [List.drop_drop, Function.comp, Nat.succ_mul, Nat.add_comm]

/-- When the payload holds all the bytes the loop reads, every chunk has the
full per-element width. -/
theorem rawChunks_length (w : Nat) :
    ∀ (n : Nat) (bs : List Nat), n * w ≤ bs.length →
      ∀ c ∈ rawChunks bs w n, c.length = w := by
  intro n
  induction n with
  | zero => intro bs _ c hc; simp [rawChunks] at hc
  | succ m ih =>
    intro bs hlen c hc
    simp only [rawChunks, List.mem_cons] at hc
    rcases hc with hc | hc
    · subst hc
      have hw : w ≤ bs.length := by
        calc w ≤ (m + 1) * w := by
                have := Nat.le_mul_of_pos_left w (Nat.succ_pos m)
                simpa using this
          _ ≤ bs.length := hlen
      simp [List.length_take, Nat.min_eq_left hw]
    · refine ih (bs.drop w) ?_ c hc
      have : m * w + w ≤ bs.length := by
        have := hlen
        rw [Nat.succ_mul] at this
        exact this
      simp only [List.length_drop]
      omega

/-! ## Claim C1 -/

/-- A record whose name buffer and class buffer hold different strings. -/
def recC1 : kstat_t :=
  { ks_crtime := 1, ks_kid := 0, ks_module := [109, 0], ks_instance := 2,
    ks_name := [110, 0], ks_type := 0, ks_class := [99, 0], ks_flags := 0,
    ks_data := .bytes [], ks_ndata := 0, ks_data_size := 0, ks_snaptime := 5 }

/-- C1: the descriptor built from `recC1` carries the record's *name* string
(byte 110, `"n"`) in its `ks_class` field, while the record's `ks_class`
buffer parses to byte 99 (`"c"`): `Kstat::try_from` reads the class field
from the `ks_name` buffer, contradicting the claim that `ks_class` equals
the class string of the underlying record. -/
theorem C1_ks_class_read_from_name_buffer :
    (Kstat.tryFrom recC1).map (fun k => k.ks_class) = Except.ok [110]
    ∧ kstat_str_parse recC1.ks_class = Except.ok [99]
    ∧ ([110] : List Nat) ≠ [99] :=
  ⟨rfl, rfl, by decide⟩

/-! ## Claim C2 -/

/-- A descriptor whose class string (`"a"`) differs from its name string
(`"b"`). -/
def ksC2 : Kstat :=
  { ks_crtime := 0, ks_snaptime := 0, ks_module := [109], ks_instance := 0,
    ks_name := [98], ks_type := .Raw, ks_class := [97], ks := none }

/-- C2: the comparison is not determined by the four-field key, and is not
even reflexive: a descriptor with class `"a"` and name `"b"` compares as
`lt` against itself, because the source's final `then_with` compares
`self.ks_class` with `other.ks_name`.  The claim that two descriptors with
equal (class, module, instance, name) compare as `Equal` fails at
`ksC2` versus itself. -/
theorem C2_cmp_not_reflexive :
    Kstat.cmp ksC2 ksC2 = Ordering.lt ∧ Kstat.cmp ksC2 ksC2 ≠ Ordering.eq := by
  decide

/-! ## Claim C3 -/

/-- A chain of one record whose module string is `"a"`. -/
def recC3 : kstat_t :=
  { ks_crtime := 0, ks_kid := 0, ks_module := [97, 0], ks_instance := 0,
    ks_name := [97, 0], ks_type := 0, ks_class := [97, 0], ks_flags := 0,
    ks_data := .bytes [], ks_ndata := 0, ks_data_size := 0, ks_snaptime := 0 }

/-- The chain used to refute C3 as stated. -/
def chainC3 : List kstat_t := [recC3]

/-- C3 counterexample: with module criterion `"b"` supplied and the other two
criteria `None`, `filter` does not yield exactly the module-matching
descriptors: the chain's only descriptor has module `"a"`, so the claimed
result is empty, yet `filter` yields it (the `None` criteria contribute
`true` to the disjunction, passing every descriptor). -/
theorem C3_filter_some_none_none_not_module_matches :
    Ctl.filter chainC3 (some [98]) none none ≠
      (Ctl.iter chainC3).filter (fun ks => ks.ks_module == [98]) := by
  decide

/-- C3 amended: `filter` yields exactly the descriptors of `iter` satisfying
the disjunction of the three per-criterion tests in which an absent
criterion contributes `true`; hence with all three criteria supplied it is
the union of the per-criterion match sets, but any `None` criterion makes
every descriptor match. -/
theorem C3_filter_or_semantics (chain : List kstat_t)
    (module : Option (List Nat)) (inst : Option Int) (name : Option (List Nat))
    (ks : Kstat) :
    ks ∈ Ctl.filter chain module inst name ↔
      ks ∈ Ctl.iter chain ∧
        ((module = none ∨ module = some ks.ks_module) ∨
         (inst = none ∨ inst = some ks.ks_instance) ∨
         (name = none ∨ name = some ks.ks_name)) := by
  unfold Ctl.filter
  rw [List.mem_filter]
  refine and_congr_right fun _ => ?_
  cases module <;> cases inst <;> cases name <;>
    · simp only [Option.map_some', Option.map_none', Option.getD_some,
        Option.getD_none, Bool.or_eq_true, beq_iff_eq]
      simp
      try tauto

/-! ## Claim C9 -/

/-- C9: `filter` with all three criteria absent yields exactly the sequence
of `iter`. -/
theorem C9_filter_all_none_eq_iter (chain : List kstat_t) :
    Ctl.filter chain none none none = Ctl.iter chain := by
  unfold Ctl.filter
  simp [Option.map, Option.getD]

/-! ## Claim C10 -/

/-- What a successful descriptor construction pins down: the back-pointer is
the record itself and the record's raw type tag parsed to the descriptor's
type. -/
theorem Kstat.tryFrom_ok_inv (k : kstat_t) (ks : Kstat)
    (h : Kstat.tryFrom k = Except.ok ks) :
    ks.ks = some k ∧ Type'.tryFrom k.ks_type = Except.ok ks.ks_type := by
  rw [Kstat.tryFrom] at h
  cases hm : kstat_str_parse k.ks_module with
  | error e => rw [hm] at h; exact absurd h (by simp)
  | ok m =>
    simp only [hm, exceptBind_ok] at h
    cases hn : kstat_str_parse k.ks_name with
    | error e => rw [hn] at h; exact absurd h (by simp)
    | ok n =>
      simp only [hn, exceptBind_ok] at h
      cases ht : Type'.tryFrom k.ks_type with
      | error e => rw [ht] at h; exact absurd h (by simp)
      | ok t =>
        simp only [ht, exceptBind_ok, Except.ok.injEq] at h
        subst h
        exact ⟨rfl, by simp [ht]⟩

/-- C10: the chain walker yields exactly the descriptors of the records
whose `Kstat::try_from` succeeds, skipping failures of every kind; every
yielded descriptor points back at a record it was successfully built from,
whose type tag in particular is a recognized one — so a node with an
out-of-range type tag is never yielded. -/
theorem C10_iter_skips_every_failing_node (chain : List kstat_t) :
    Ctl.iter chain = chain.filterMap (fun k => (Kstat.tryFrom k).toOption)
    ∧ (∀ ks, ks ∈ Ctl.iter chain →
        ∃ k, ks.ks = some k ∧ Kstat.tryFrom k = Except.ok ks
          ∧ Type'.tryFrom k.ks_type = Except.ok ks.ks_type) := by
  constructor
  · induction chain with
    | nil => rfl
    | cons k rest ih =>
      rw [Ctl.iter]
      cases hk : Kstat.tryFrom k with
      | ok ks => simp [List.filterMap_cons, hk, Except.toOption, ih]
      | error e => simp [List.filterMap_cons, hk, Except.toOption, ih]
  · induction chain with
    | nil => intro ks h; exact absurd h (by simp [Ctl.iter])
    | cons k rest ih =>
      intro ks h
      rw [Ctl.iter] at h
      cases hk : Kstat.tryFrom k with
      | ok ks' =>
        rw [hk] at h
        rcases List.mem_cons.mp h with h | h
        · subst h
          obtain ⟨h1, h2⟩ := Kstat.tryFrom_ok_inv k ks hk
          exact ⟨k, h1, hk, h2⟩
        · exact ih ks h
      | error e =>
        rw [hk] at h
        exact ih ks h

/-! ## Claim C4 -/

/-- C4: for a Named-type record the decoder's element count is the minimum
of the kernel-declared count (`ks_ndata`) and the size-implied count
(`ks_data_size / size_of::<kstat_named_t>()`): when the memory holds at
least that many entries, a successful decode returns exactly that many, and
the decode reads no entry beyond that count — replacing the memory beyond
the first `count` entries cannot change the result. -/
theorem C4_named_count_min (self : Kstat) (ksr : kstat_t)
    (es : List kstat_named_t)
    (hks : self.ks = some ksr) (hty : self.ks_type = Type'.Named)
    (hdata : ksr.ks_data = KsMem.named es)
    (hmem : min ksr.ks_ndata (ksr.ks_data_size / size_of_kstat_named_t)
      ≤ es.length) :
    (∀ vs, self.data = DataResult.ok (Data.Named vs) →
        vs.length = min ksr.ks_ndata (ksr.ks_data_size / size_of_kstat_named_t))
    ∧ (∀ es' : List kstat_named_t,
        es'.take (min ksr.ks_ndata (ksr.ks_data_size / size_of_kstat_named_t))
          = es.take (min ksr.ks_ndata (ksr.ks_data_size / size_of_kstat_named_t)) →
        Kstat.data { self with ks := some { ksr with ks_data := KsMem.named es' } }
          = self.data) := by
  constructor
  · intro vs h
    simp only [Kstat.data, hks, hty, hdata] at h
    cases hc : collectNamed (es.take (min ksr.ks_ndata
        (ksr.ks_data_size / size_of_kstat_named_t))) with
    | ok vs' =>
      rw [hc] at h
      simp only [DataResult.ok.injEq, Data.Named.injEq] at h
      have hlen := collectNamed_ok_length _ _ hc
      rw [← h]
      rw [hlen, List.length_take]
      exact Nat.min_eq_left hmem
    | error e =>
      rw [hc] at h
      exact absurd h (by simp)
  · intro es' h
    simp only [Kstat.data, hks, hty, hdata]
    rw [h]

/-! ## Claim C5 -/

/-- C5: decoding a Raw-type record with declared count 0 yields an empty
sequence (never an error); with declared count `n > 0` it yields exactly
`n` chunks of width `ks_data_size / n` sliced consecutively from the start
of the payload — chunk `i` is the `item_size` bytes at offset
`i * item_size` — and when the payload holds all the bytes the loop reads,
every chunk has exactly that width. -/
theorem C5_raw_decode (self : Kstat) (ksr : kstat_t) (bs : List Nat)
    (hks : self.ks = some ksr) (hty : self.ks_type = Type'.Raw)
    (hdata : ksr.ks_data = KsMem.bytes bs) :
    (ksr.ks_ndata = 0 → self.data = DataResult.ok (Data.Raw []))
    ∧ (0 < ksr.ks_ndata →
        self.data = DataResult.ok (Data.Raw ((List.range ksr.ks_ndata).map
          (fun i => (bs.drop (i * (ksr.ks_data_size / ksr.ks_ndata))).take
            (ksr.ks_data_size / ksr.ks_ndata)))))
    ∧ (ksr.ks_ndata * (ksr.ks_data_size / ksr.ks_ndata) ≤ bs.length →
        ∀ c ∈ rawChunks bs (ksr.ks_data_size / ksr.ks_ndata) ksr.ks_ndata,
          c.length = ksr.ks_data_size / ksr.ks_ndata) := by
  refine ⟨?_, ?_, ?_⟩
  · intro h0
    simp [Kstat.data, hks, hty, hdata, h0]
  · intro hpos
    have h0 : ¬ ksr.ks_ndata = 0 := Nat.pos_iff_ne_zero.mp hpos
    simp [Kstat.data, hks, hty, hdata, h0, rawChunks_eq_range_map]
  · intro hlen c hc
    exact rawChunks_length _ _ _ hlen c hc

/-! ## Claim C6 -/

/-- A successful decode yields the `Data` variant of the descriptor's type
tag. -/
theorem Kstat.data_ok_variant (self : Kstat) (d : Data)
    (h : self.data = DataResult.ok d) :
    Data.variantOf d = some self.ks_type := by
  cases hks : self.ks with
  | none =>
    simp only [Kstat.data, hks] at h
    exact DataResult.noConfusion h
  | some ks =>
    cases hty : self.ks_type <;>
      cases hd : ks.ks_data <;>
        simp only [Kstat.data, hks, hty, hd] at h <;>
        first
        | exact DataResult.noConfusion h
        | (injection h with h; subst h; rfl)
        | (split at h <;>
            first
            | exact DataResult.noConfusion h
            | (injection h with h; subst h; rfl)
            | (split at h <;>
                first
                | exact DataResult.noConfusion h
                | (injection h with h; subst h; rfl)))

/-- A successfully decoded named entry carries the `NamedType` its embedded
tag converted to. -/
theorem Named.tryFrom_ok_data_type (e : kstat_named_t) (n : Named)
    (t : NamedType)
    (h2 : Named.tryFrom e = Except.ok n)
    (h3 : NamedType.tryFrom e.data_type = Except.ok t) :
    n.data_type = t := by
  rw [Named.tryFrom] at h2
  cases hp : kstat_str_parse e.name with
  | error er => rw [hp] at h2; exact Except.noConfusion h2
  | ok nm =>
    simp only [hp, exceptBind_ok, h3] at h2
    cases t with
    | Char => injection h2 with h2; subst h2; rfl
    | Int32 => injection h2 with h2; subst h2; rfl
    | UInt32 => injection h2 with h2; subst h2; rfl
    | Int64 => injection h2 with h2; subst h2; rfl
    | UInt64 => injection h2 with h2; subst h2; rfl
    | String =>
      have h2' :
          (if utf8Valid (e.value.str.addr.takeWhile (fun b => b != 0)) then
            Except.ok { name := nm, value :=
              NamedData.String (e.value.str.addr.takeWhile (fun b => b != 0)) }
          else (Except.error Error.InvalidString : Except Error Named))
            = Except.ok n := h2
      cases hu : utf8Valid (e.value.str.addr.takeWhile (fun b => b != 0)) with
      | false =>
        rw [hu] at h2'
        simp at h2'
      | true =>
        rw [hu] at h2'
        simp only [if_true] at h2'
        injection h2' with h2'
        subst h2'
        rfl

/-- C6: tag/value consistency.  A successful decode returns the `Data`
variant matching the descriptor's parsed type tag, and every decoded named
entry's `data_type()` equals the `NamedType` selected from that entry's
embedded type tag. -/
theorem C6_tag_value_consistency (self : Kstat) (d : Data)
    (e : kstat_named_t) (n : Named) (t : NamedType)
    (h1 : self.data = DataResult.ok d)
    (h2 : Named.tryFrom e = Except.ok n)
    (h3 : NamedType.tryFrom e.data_type = Except.ok t) :
    Data.variantOf d = some self.ks_type ∧ n.data_type = t :=
  ⟨Kstat.data_ok_variant self d h1, Named.tryFrom_ok_data_type e n t h2 h3⟩

/-- Record used to instantiate C6 (a Raw-type record decoding to `Raw []`). -/
def recC6 : kstat_t :=
  { ks_crtime := 0, ks_kid := 0, ks_module := [109, 0], ks_instance := 0,
    ks_name := [110, 0], ks_type := 0, ks_class := [99, 0], ks_flags := 0,
    ks_data := .bytes [], ks_ndata := 0, ks_data_size := 0, ks_snaptime := 0 }

/-- Descriptor over `recC6`. -/
def selfC6 : Kstat :=
  { ks_crtime := 0, ks_snaptime := 0, ks_module := [109], ks_instance := 0,
    ks_name := [110], ks_type := .Raw, ks_class := [110], ks := some recC6 }

/-- A named entry with the Int32 tag used to instantiate C6. -/
def eC6 : kstat_named_t :=
  { name := [120, 0], data_type := 1,
    value := { charc := [], str := { addr := [], len := 0 },
               i32 := 7, ui32 := 0, i64 := 0, ui64 := 0 } }

/-- The decoded form of `eC6`. -/
def nC6 : Named := { name := [120], value := .Int32 7 }

/-- C6 instantiated at a concrete record and a concrete named entry. -/
theorem C6_witness :
    Data.variantOf (Data.Raw []) = some selfC6.ks_type
    ∧ nC6.data_type = NamedType.Int32 :=
  C6_tag_value_consistency selfC6 (Data.Raw []) eC6 nC6 NamedType.Int32
    rfl rfl rfl

/-! ## Claim C7 -/

/-- C7: failures inside a Named decode.  An entry whose 31-byte name buffer
is not valid UTF-8 fails its decode with `InvalidString`; an entry whose
name parses but whose embedded type tag is none of the recognized values
fails with `InvalidNamedType` carrying that tag; an entry whose name parses
but whose String-typed value is not valid UTF-8 fails with `InvalidString`;
and when any entry within the decoded range fails (the preceding entries
decoding fine), the whole read returns that entry's error — no partial
sequence. -/
theorem C7_named_entry_failures (e : kstat_named_t)
    (self : Kstat) (ksr : kstat_t) (es l1 l2 : List kstat_named_t)
    (err : Error)
    (hks : self.ks = some ksr) (hty : self.ks_type = Type'.Named)
    (hdata : ksr.ks_data = KsMem.named es)
    (hsplit : es.take (min ksr.ks_ndata
        (ksr.ks_data_size / size_of_kstat_named_t)) = l1 ++ e :: l2)
    (hok : ∀ x ∈ l1, ∃ v, Named.tryFrom x = Except.ok v) :
    (utf8Valid (e.name.takeWhile (fun b => b != 0)) = false →
      Named.tryFrom e = Except.error Error.InvalidString)
    ∧ ((∃ nm, kstat_str_parse e.name = Except.ok nm) →
      (e.data_type ≠ KSTAT_DATA_CHAR ∧ e.data_type ≠ KSTAT_DATA_INT32 ∧
       e.data_type ≠ KSTAT_DATA_UINT32 ∧ e.data_type ≠ KSTAT_DATA_INT64 ∧
       e.data_type ≠ KSTAT_DATA_UINT64 ∧ e.data_type ≠ KSTAT_DATA_STRING) →
      Named.tryFrom e = Except.error (Error.InvalidNamedType e.data_type))
    ∧ ((∃ nm, kstat_str_parse e.name = Except.ok nm) →
      e.data_type = KSTAT_DATA_STRING →
      utf8Valid (e.value.str.addr.takeWhile (fun b => b != 0)) = false →
      Named.tryFrom e = Except.error Error.InvalidString)
    ∧ (Named.tryFrom e = Except.error err →
        self.data = DataResult.err err) := by
  refine ⟨?_, ?_, ?_, ?_⟩
  · intro hbadname
    have hp : kstat_str_parse e.name = Except.error Error.InvalidString := by
      rw [kstat_str_parse]
      simp [hbadname]
    rw [Named.tryFrom]
    simp only [hp, exceptBind_error]
  · intro hex hbad
    obtain ⟨nm, hname⟩ := hex
    obtain ⟨b0, b1, b2, b3, b4, b5⟩ := hbad
    have htag : NamedType.tryFrom e.data_type
        = Except.error (Error.InvalidNamedType e.data_type) := by
      rw [NamedType.tryFrom]
      simp [b0, b1, b2, b3, b4, b5]
    rw [Named.tryFrom]
    simp only [hname, exceptBind_ok, htag, exceptBind_error]
  · intro hex h9 hbadutf
    obtain ⟨nm, hname⟩ := hex
    have htag : NamedType.tryFrom e.data_type = Except.ok NamedType.String := by
      rw [h9]; rfl
    rw [Named.tryFrom]
    simp only [hname, exceptBind_ok, htag]
    simp [hbadutf]
  · intro herr
    simp only [Kstat.data, hks, hty, hdata, hsplit,
      collectNamed_error_of_mem l1 e l2 err hok herr]

/-! ## Claim C8 -/

/-- C8: an unrecognized outer type tag fails descriptor construction with
`InvalidType` carrying exactly that tag (given the string buffers parse, so
the tag check is what fails), no partial descriptor existing; and the
construction never looks at the payload — the result is the same whatever
the `ks_data` memory holds. -/
theorem C8_invalid_outer_type (t : Nat) (k : kstat_t) (m n : List Nat)
    (d d' : KsMem)
    (ht : t ≠ KSTAT_TYPE_RAW ∧ t ≠ KSTAT_TYPE_NAMED ∧ t ≠ KSTAT_TYPE_INTR ∧
      t ≠ KSTAT_TYPE_IO ∧ t ≠ KSTAT_TYPE_TIMER)
    (hk : k.ks_type = t)
    (hm : kstat_str_parse k.ks_module = Except.ok m)
    (hn : kstat_str_parse k.ks_name = Except.ok n) :
    Type'.tryFrom t = Except.error (Error.InvalidType t)
    ∧ Kstat.tryFrom k = Except.error (Error.InvalidType t)
    ∧ Kstat.tryFrom { k with ks_data := d }
        = Kstat.tryFrom { k with ks_data := d' } := by
  obtain ⟨h0, h1, h2, h3, h4⟩ := ht
  have htt : Type'.tryFrom t = Except.error (Error.InvalidType t) := by
    rw [Type'.tryFrom]
    simp [h0, h1, h2, h3, h4]
  have hfail : ∀ dm : KsMem,
      Kstat.tryFrom { k with ks_data := dm }
        = Except.error (Error.InvalidType t) := by
    intro dm
    rw [Kstat.tryFrom]
    have em : ({ k with ks_data := dm } : kstat_t).ks_module = k.ks_module := rfl
    have en : ({ k with ks_data := dm } : kstat_t).ks_name = k.ks_name := rfl
    have et : ({ k with ks_data := dm } : kstat_t).ks_type = k.ks_type := rfl
    rw [em, en, et]
    simp only [hm, hn, exceptBind_ok, hk, htt, exceptBind_error]
  have hfk : Kstat.tryFrom k = Except.error (Error.InvalidType t) := by
    rw [Kstat.tryFrom]
    simp only [hm, hn, exceptBind_ok, hk, htt, exceptBind_error]
  exact ⟨htt, hfk, by rw [hfail d, hfail d']⟩

/-- Record used to instantiate C8: valid module and name strings, type tag
99. -/
def recC8 : kstat_t :=
  { ks_crtime := 0, ks_kid := 0, ks_module := [97, 0], ks_instance := 0,
    ks_name := [98, 0], ks_type := 99, ks_class := [99, 0], ks_flags := 0,
    ks_data := .bytes [], ks_ndata := 0, ks_data_size := 0, ks_snaptime := 0 }

/-- C8 instantiated at the concrete tag 99: descriptor construction fails
with `InvalidType 99`. -/
theorem C8_witness :
    Kstat.tryFrom recC8 = Except.error (Error.InvalidType 99) :=
  (C8_invalid_outer_type 99 recC8 [97] [98] (KsMem.bytes []) (KsMem.bytes [])
    (by decide) rfl rfl rfl).2.1

/-! ## Concrete instances for the C4, C5 and C7 witnesses -/

/-- A named entry (tag Int32, value 7, name `"x"`) for the C4 instance. -/
def eC4 : kstat_named_t :=
  { name := [120, 0], data_type := 1,
    value := { charc := [], str := { addr := [], len := 0 },
               i32 := 7, ui32 := 0, i64 := 0, ui64 := 0 } }

/-- Memory holding three decodable entries for the C4 instance. -/
def esC4 : List kstat_named_t := [eC4, eC4, eC4]

/-- A Named-type record declaring 5 entries but only 96 payload bytes
(two entries' worth), over memory holding three entries. -/
def recC4 : kstat_t :=
  { ks_crtime := 0, ks_kid := 0, ks_module := [109, 0], ks_instance := 0,
    ks_name := [110, 0], ks_type := 1, ks_class := [99, 0], ks_flags := 0,
    ks_data := .named esC4, ks_ndata := 5, ks_data_size := 96,
    ks_snaptime := 0 }

/-- Descriptor over `recC4`. -/
def selfC4 : Kstat :=
  { ks_crtime := 0, ks_snaptime := 0, ks_module := [109], ks_instance := 0,
    ks_name := [110], ks_type := .Named, ks_class := [110], ks := some recC4 }

/-- What `recC4` decodes to: two entries, the reconciled count. -/
def vsC4 : List Named :=
  [{ name := [120], value := .Int32 7 }, { name := [120], value := .Int32 7 }]

/-- C4 instantiated: the record declares 5 entries, the byte size implies 2,
and the decode returns exactly `min 5 2 = 2` entries. -/
theorem C4_witness :
    vsC4.length
      = min recC4.ks_ndata (recC4.ks_data_size / size_of_kstat_named_t) :=
  (C4_named_count_min selfC4 recC4 esC4 rfl rfl rfl (by decide)).1 vsC4 rfl

/-- A Raw-type record with 6 payload bytes and 2 declared elements. -/
def recC5 : kstat_t :=
  { ks_crtime := 0, ks_kid := 0, ks_module := [109, 0], ks_instance := 0,
    ks_name := [110, 0], ks_type := 0, ks_class := [99, 0], ks_flags := 0,
    ks_data := .bytes [0, 1, 2, 3, 4, 5], ks_ndata := 2, ks_data_size := 6,
    ks_snaptime := 0 }

/-- Descriptor over `recC5`. -/
def selfC5 : Kstat :=
  { ks_crtime := 0, ks_snaptime := 0, ks_module := [109], ks_instance := 0,
    ks_name := [110], ks_type := .Raw, ks_class := [110], ks := some recC5 }

/-- C5 instantiated: 6 bytes with 2 declared elements decode to two
3-byte chunks sliced consecutively. -/
theorem C5_witness :
    Kstat.data selfC5 = DataResult.ok (Data.Raw [[0, 1, 2], [3, 4, 5]]) :=
  ((C5_raw_decode selfC5 recC5 [0, 1, 2, 3, 4, 5] rfl rfl rfl).2.1
    (by decide)).trans (by decide)

/-- A decodable named entry for the C7 instance. -/
def eokC7 : kstat_named_t :=
  { name := [120, 0], data_type := 1,
    value := { charc := [], str := { addr := [], len := 0 },
               i32 := 7, ui32 := 0, i64 := 0, ui64 := 0 } }

/-- A named entry whose embedded type tag 7 is unrecognized. -/
def ebadC7 : kstat_named_t :=
  { name := [121, 0], data_type := 7,
    value := { charc := [], str := { addr := [], len := 0 },
               i32 := 0, ui32 := 0, i64 := 0, ui64 := 0 } }

/-- Memory for the C7 instance: a good entry followed by the bad one. -/
def esC7 : List kstat_named_t := [eokC7, ebadC7]

/-- A Named-type record whose second entry has the unrecognized tag. -/
def recC7 : kstat_t :=
  { ks_crtime := 0, ks_kid := 0, ks_module := [109, 0], ks_instance := 0,
    ks_name := [110, 0], ks_type := 1, ks_class := [99, 0], ks_flags := 0,
    ks_data := .named esC7, ks_ndata := 2, ks_data_size := 96,
    ks_snaptime := 0 }

/-- Descriptor over `recC7`. -/
def selfC7 : Kstat :=
  { ks_crtime := 0, ks_snaptime := 0, ks_module := [109], ks_instance := 0,
    ks_name := [110], ks_type := .Named, ks_class := [110], ks := some recC7 }

/-- C7 instantiated: the whole read of `recC7` fails with
`InvalidNamedType 7`, the tag of the bad entry, with no partial sequence. -/
theorem C7_witness :
    Kstat.data selfC7 = DataResult.err (Error.InvalidNamedType 7) :=
  (C7_named_entry_failures ebadC7 selfC7 recC7 esC7 [eokC7] []
    (Error.InvalidNamedType 7) rfl rfl rfl rfl
    (by
      intro x hx
      rw [List.mem_singleton] at hx
      subst hx
      exact ⟨_, rfl⟩)).2.2.2 rfl
